import Mathlib

/-!
# Verification of the CV-builder conversation state machine

A shallow embedding in Lean 4 of the deterministic turn-based CV builder
(`app/core/state.py`, `app/handlers/*.py`, `app/services/workflow.py`,
`app/services/validation.py`, `app/services/redis_store.py`), together with
theorems settling the specification claims about it.

External collaborators (the LLM judge, the PDF renderer, Redis) are passed in
as explicit parameters, exactly at the call sites where the Python code invokes
them; everything else is translated function by function from the source.
-/

set_option autoImplicit false

namespace CVBuilder

/-! ## Python string primitives

Python `str.strip()` removes leading and trailing whitespace; `str.lower()`
lowercases.  We model the ASCII fragment of both (the whitespace characters
recognised by `str.strip()` and `\s`, and ASCII case mapping), which covers
every string manipulated by the program (the Arabic keywords contain no
cased or whitespace characters).
-/

/-- The ASCII whitespace characters stripped by Python `str.strip()` and
matched by the regex class `\s`: space, tab, newline, carriage return,
vertical tab, form feed. -/
def isPySpace (c : Char) : Bool :=
  c = ' ' || c = '\t' || c = '\n' || c = '\r' || c = '\x0b' || c = '\x0c'

/-- ASCII lower-casing of a single character (Python `str.lower()` on the
ASCII range; other characters are unchanged). -/
def asciiLower (c : Char) : Char :=
  if 65 ≤ c.toNat ∧ c.toNat ≤ 90 then Char.ofNat (c.toNat + 32) else c

/-- Strip leading and trailing `isPySpace` characters from a character list. -/
def stripChars (cs : List Char) : List Char :=
  ((cs.dropWhile isPySpace).reverse.dropWhile isPySpace).reverse

/-- Python `str.strip()`. -/
def pyStrip (s : String) : String := ⟨stripChars s.data⟩

/-- Python `str.lower()` (ASCII fragment). -/
def pyLower (s : String) : String := ⟨s.data.map asciiLower⟩

/-- Python `str.upper()` (ASCII fragment). -/
def asciiUpper (c : Char) : Char :=
  if 97 ≤ c.toNat ∧ c.toNat ≤ 122 then Char.ofNat (c.toNat - 32) else c

/-- Python `str.upper()` on a string (ASCII fragment). -/
def pyUpper (s : String) : String := ⟨s.data.map asciiUpper⟩

/-- Python truthiness of an optional string (`not x` is true for `None` and
for the empty string). -/
def strFalsy : Option String → Bool
  | none => true
  | some s => s = ""

/-! ## Python dict model

Python `dict[str, v]` is modelled as an insertion-ordered association list
with unique keys.  `dictSet d k v` is `d[k] = v`: it overwrites in place when
the key is present and appends otherwise, preserving insertion order.
`dictGet d k` is `d.get(k)`. -/

/-- Python `d.get(k)`: first binding of `k`, if any. -/
def dictGet {v : Type} (d : List (String × v)) (k : String) : Option v :=
  (d.find? (fun p => p.1 = k)).map (·.2)

/-- Python `d[k] = v` on an insertion-ordered dict. -/
def dictSet {v : Type} (d : List (String × v)) (k : String) (val : v) :
    List (String × v) :=
  if d.any (fun p => p.1 = k) then
    d.map (fun p => if p.1 = k then (k, val) else p)
  else
    d ++ [(k, val)]

/-! ## Registry constants (`app/core/constants.py`) -/

/-- Constant `PERSONAL_INFO_FIELDS` from `app/core/constants.py`. -/
def PERSONAL_INFO_FIELDS : List String := ["name", "email", "phone", "address"]

/-- The per-language keyword table entries of `KEYWORDS`. -/
structure Keywords where
  done : String
  review : String
  generate : String
  edit : String
deriving Repr, DecidableEq

/-- Table `KEYWORDS` from `app/core/constants.py`; indexing an unknown language is a
Python `KeyError`, modelled by `none`. -/
def KEYWORDS : String → Option Keywords
  | "ar" => some ⟨"تم", "مراجعة", "إنشاء", "تعديل"⟩
  | "en" => some ⟨"done", "review", "generate", "edit"⟩
  | _ => none

/-! ## Session state (`app/core/state.py`) -/

/-- List-section entries are Python dicts (in the turn-based flow always the
one-field record mapping "details" to the raw text); modelled as string-keyed,
string-valued insertion-ordered dicts. -/
abbrev Entry := List (String × String)

/-- Model `CVState` from `app/core/state.py`, field for field, with the same
defaults. -/
structure CVState where
  language : String := "ar"
  personal_info : List (String × String) := []
  education : List Entry := []
  work_experience : List Entry := []
  skills : List String := []
  validation_errors : List (String × String) := []
  current_section : String := "personal_info"
  current_field : Option String := none
  user_input : Option String := none
  chatbot_response : Option String := none
  cv_output : Option String := none
  is_complete : Bool := false
deriving Repr, DecidableEq

/-- The `valid_languages` list of `CVState.validate_language`. -/
def valid_languages : List String := ["en", "ar"]

/-- The `valid_sections` list of `CVState.validate_section`. -/
def valid_sections : List String :=
  ["personal_info", "education", "work_experience", "skills", "finalize", "review"]

/-- Validator `CVState.validate_language`: returns the value or raises `ValueError`. -/
def validate_language (v : String) : Except String String :=
  if v ∈ valid_languages then .ok v
  else .error ("Invalid language: " ++ v ++ ". Must be one of: en, ar")

/-- Validator `CVState.validate_section`: returns the value or raises `ValueError`. -/
def validate_section (v : String) : Except String String :=
  if v ∈ valid_sections then .ok v
  else .error ("Invalid section: " ++ v ++
    ". Expected one of: personal_info, education, work_experience, skills, finalize, review")

/-! ## Partial updates

Handlers and the controller return sparse update dicts; a field is `none`
when the key is absent from the returned dict.  For optional state fields the
update value is itself an option (`some none` means the key is present and
explicitly set to Python `None`). -/

/-- A sparse state update as returned by a handler or by `process_input`. -/
structure Update where
  language : Option String := none
  personal_info : Option (List (String × String)) := none
  education : Option (List Entry) := none
  work_experience : Option (List Entry) := none
  skills : Option (List String) := none
  validation_errors : Option (List (String × String)) := none
  current_section : Option String := none
  current_field : Option (Option String) := none
  user_input : Option (Option String) := none
  chatbot_response : Option (Option String) := none
  cv_output : Option (Option String) := none
  is_complete : Option Bool := none
deriving Repr, DecidableEq

/-- Merging a sparse update onto a state: every key present in the update
replaces that state field (the LangGraph state channels of `CVState` carry no
reducers, so an assignment overwrites the previous value). -/
def applyUpdate (s : CVState) (u : Update) : CVState where
  language := u.language.getD s.language
  personal_info := u.personal_info.getD s.personal_info
  education := u.education.getD s.education
  work_experience := u.work_experience.getD s.work_experience
  skills := u.skills.getD s.skills
  validation_errors := u.validation_errors.getD s.validation_errors
  current_section := u.current_section.getD s.current_section
  current_field := u.current_field.getD s.current_field
  user_input := u.user_input.getD s.user_input
  chatbot_response := u.chatbot_response.getD s.chatbot_response
  cv_output := u.cv_output.getD s.cv_output
  is_complete := u.is_complete.getD s.is_complete

/-! ## List-section handlers
(`app/handlers/education.py`, `experience.py`, `skills.py`) -/

/-- Function `handle_list_section` from `app/handlers/education.py`: the generic
list-section handler shared by education and work experience.  The returned
dict assigns the appended list to the field named `list_key`; since `Update`
has one slot per state field, the assignment is dispatched on `list_key`
(the two call sites pass "education" and "work_experience"). -/
def handle_list_section (user_input : String) (current_list : List Entry)
    (list_key next_section : String) (language : String) : Except String Update :=
  match KEYWORDS language with
  | none => .error "KeyError"
  | some kw =>
    let input_strip := pyStrip user_input
    let input_lower := pyLower input_strip
    let done_keyword := pyLower kw.done
    if input_lower = done_keyword then
      .ok { current_section := some next_section, current_field := some none }
    else if input_strip = "" then
      .ok { current_section := some list_key,
            chatbot_response := some (some "Please provide details or type 'done'.") }
    else
      let updated_list := current_list ++ [[("details", input_strip)]]
      .ok (if list_key = "education" then
            { education := some updated_list, current_section := some list_key,
              current_field := some none }
          else
            { work_experience := some updated_list, current_section := some list_key,
              current_field := some none })

/-- Function `handle_education` from `app/handlers/education.py`. -/
def handle_education (user_input : Option String) (current_list : List Entry)
    (language : String) : Except String Update :=
  handle_list_section (pyStrip (user_input.getD "")) current_list
    "education" "skills" language

/-- Function `handle_experience` from `app/handlers/experience.py`. -/
def handle_experience (user_input : Option String) (current_list : List Entry)
    (language : String) : Except String Update :=
  handle_list_section (pyStrip (user_input.getD "")) current_list
    "work_experience" "finalize" language

/-- Function `handle_skills` from `app/handlers/skills.py`. -/
def handle_skills (user_input : String) (current_list : List String)
    (language : String) : Except String Update :=
  match KEYWORDS language with
  | none => .error "KeyError"
  | some kw =>
    let input_strip := pyStrip user_input
    let input_lower := pyLower input_strip
    let done_keyword := pyLower kw.done
    if input_lower = done_keyword then
      .ok { current_section := some "finalize", current_field := some none }
    else if input_strip = "" then
      .ok { current_section := some "skills",
            chatbot_response := some (some "Please provide a skill or type 'done'.") }
    else
      .ok { skills := some (current_list ++ [input_strip]),
            current_section := some "skills", current_field := some none }

/-! ## Personal-info handler (`app/handlers/personal_info.py`) -/

/-- Function `handle_personal_info` from `app/handlers/personal_info.py`.  Python
`if not current_field` treats both `None` and the empty string as unset;
`PERSONAL_INFO_FIELDS.index` raising `ValueError` for an unknown field is the
`none` branch of `findIdx?`, handled by the `except` clause of the source. -/
def handle_personal_info (user_input : Option String)
    (current_personal_info : List (String × String))
    (current_field : Option String) : Update :=
  if strFalsy current_field then
    { current_field := some (some PERSONAL_INFO_FIELDS.head!),
      current_section := some "personal_info" }
  else
    let f := current_field.getD ""
    let updated_personal_info := dictSet current_personal_info f
      (pyStrip (user_input.getD ""))
    match PERSONAL_INFO_FIELDS.findIdx? (· = f) with
    | some current_index =>
      if current_index + 1 < PERSONAL_INFO_FIELDS.length then
        { personal_info := some updated_personal_info,
          current_field := some (PERSONAL_INFO_FIELDS.get? (current_index + 1)),
          current_section := some "personal_info" }
      else
        { personal_info := some updated_personal_info,
          current_section := some "education", current_field := some none }
    | none =>
      { personal_info := some updated_personal_info,
        current_section := some "education", current_field := some none }

/-! ## Finalize handler (`app/handlers/finalize.py`)

`generate_cv_pdf` and `format_cv_text` (`app/services/pdf.py`) are the
document renderer, an external collaborator; their joint outcome is passed in
as `render`: `.ok (pdf_url, text_content)` on success, `.error e` when the
renderer raises (the exception text).  A `KeyError` escaping a handler is
modelled as `.error`. -/

/-- Function `handle_generate` from `app/handlers/finalize.py`.  The whole body is one
`try`: a renderer exception is caught and turned into the failure update; the
message dicts are keyed by "ar"/"en" only, so any other session language
raises `KeyError` out of the handler (in both the success and the failure
branch). -/
def handle_generate (render : Except String (String × String))
    (state : CVState) : Except String Update :=
  match render with
  | .ok (pdf_url, text_content) =>
    let msg : Option String :=
      if state.language = "ar" then
        some ("تم إنشاء سيرتك الذاتية بنجاح!\n\n" ++ text_content ++
          "\n\nيمكنك تحميل النسخة PDF <a href='" ++ pdf_url ++
          "' target='_blank' download>من هنا</a>.")
      else if state.language = "en" then
        some ("Your CV has been generated successfully!\n\n" ++ text_content ++
          "\n\nDownload the PDF version <a href='" ++ pdf_url ++
          "' target='_blank' download>here</a>.")
      else none
    match msg with
    | none => .error "KeyError"
    | some completion_message =>
      .ok { cv_output := some (some completion_message), is_complete := some true,
            chatbot_response := some none, user_input := some none,
            current_section := some "completed", current_field := some none }
  | .error e =>
    let msg : Option String :=
      if state.language = "ar" then
        some ("حدث خطأ أثناء إنشاء السيرة الذاتية: " ++ e)
      else if state.language = "en" then
        some ("An error occurred while generating the CV: " ++ e)
      else none
    match msg with
    | none => .error "KeyError"
    | some error_message =>
      .ok { cv_output := some (some error_message), is_complete := some false,
            current_section := some "finalize", current_field := some none }

/-- Function `handle_finalize` from `app/handlers/finalize.py`. -/
def handle_finalize (user_input : Option String) (state : CVState)
    (language : String) (render : Except String (String × String)) :
    Except String Update :=
  match KEYWORDS language with
  | none => .error "KeyError"
  | some kw =>
    let input_lower := pyLower (pyStrip (user_input.getD ""))
    if input_lower = pyLower kw.generate then
      handle_generate render state
    else if input_lower = pyLower kw.review then
      .ok { current_section := some "review", current_field := some none }
    else if input_lower = pyLower kw.edit then
      .ok { current_section := some "personal_info",
            current_field := some (some PERSONAL_INFO_FIELDS.head!),
            is_complete := some false, cv_output := some none }
    else
      let error_msg : String :=
        if language = "ar" then
          "الرجاء كتابة '" ++ kw.review ++ "'، '" ++ kw.generate ++ "'، أو '" ++
            kw.edit ++ "'."
        else
          "Please type '" ++ kw.review ++ "', '" ++ kw.generate ++ "', or '" ++
            kw.edit ++ "'."
      .ok { chatbot_response := some (some error_msg),
            current_section := some "finalize", current_field := some none }

/-! ## Turn controller (`app/services/workflow.py`) -/

/-- The `handlers` dispatch table of `process_input`: the thunk registered for
the current section, `none` when the section is not in the table.  The skills
lambda passes `state.user_input` (typed `str`) straight into
`handle_skills`, which would raise `AttributeError` on `None`; that path is
modelled as `.error` (it is unreachable behind the empty-input guard). -/
def dispatch (render : Except String (String × String)) (state : CVState) :
    Option (Except String Update) :=
  match state.current_section with
  | "personal_info" =>
    some (.ok (handle_personal_info state.user_input state.personal_info
      state.current_field))
  | "education" => some (handle_education state.user_input state.education
      state.language)
  | "work_experience" => some (handle_experience state.user_input
      state.work_experience state.language)
  | "skills" =>
    match state.user_input with
    | none => some (.error "AttributeError")
    | some s => some (handle_skills s state.skills state.language)
  | "finalize" => some (handle_finalize state.user_input state state.language render)
  | _ => none

/-- Function `process_input` from `app/services/workflow.py`.

The validator is the external oracle `validate`: `validate_cv(section,
state.__dict__, strict)` evaluated on the current section and state (the
`strict` flag computed by `process_input` is accepted but not forwarded by
`validate_cv`, so it does not appear here; for non-`personal_info` sections
the oracle's verdict comes from the LLM judge).  Any exception escaping the
`try` block — including one raised inside a handler — is converted to the
generic retry update by the `except` clause. -/
def process_input (validate : String → CVState → Bool × String)
    (render : Except String (String × String)) (state : CVState) : Update :=
  if strFalsy state.user_input || pyStrip (state.user_input.getD "") = "" then
    { user_input := some none, chatbot_response := some none }
  else
    match dispatch render state with
    | none =>
      { chatbot_response := some (some "An error occurred. Please try again."),
        current_section := some "personal_info" }
    | some (.error _) =>
      { chatbot_response := some (some "An error occurred. Please try again."),
        current_section := some state.current_section }
    | some (.ok updates) =>
      let changed := state.current_section ≠
        (updates.current_section.getD state.current_section)
      let result := if changed then validate state.current_section state
                    else (true, "")
      if result.1 = false then
        { updates with
          chatbot_response := some (some ("Please revise your input:\n" ++
            result.2 ++ "\n\nCurrent section: " ++ state.current_section)),
          user_input := some none,
          validation_errors := some [(state.current_section, result.2)] }
      else
        { updates with
          validation_errors := some (state.validation_errors.filter
            (fun p => p.1 ≠ state.current_section)),
          user_input := some none }

/-! ## Regex matchers (`app/services/validation.py`)

`DataValidator._validate_format` runs `re.fullmatch(rule, value)`.  The two
rule strings in `_validation_rules["personal_info"].format_rules` are
embedded as executable matchers giving the standard semantics of those
regexes on the character list of the string: a match is a decomposition of
the whole string into the pattern's pieces.  Character classes are read off
the pattern (`\d` and `\s` in their ASCII extent). -/

/-- Membership in `[a-zA-Z]`. -/
def isAsciiAlphaChar (c : Char) : Bool :=
  (97 ≤ c.toNat && c.toNat ≤ 122) || (65 ≤ c.toNat && c.toNat ≤ 90)

/-- Membership in `[0-9]` (`\d`, ASCII extent). -/
def isAsciiDigitChar (c : Char) : Bool :=
  48 ≤ c.toNat && c.toNat ≤ 57

/-- Membership in `[a-zA-Z0-9._%+-]`, the local-part class of the email rule. -/
def inEmailLocalClass (c : Char) : Bool :=
  isAsciiAlphaChar c || isAsciiDigitChar c ||
    c = '.' || c = '_' || c = '%' || c = '+' || c = '-'

/-- Membership in `[a-zA-Z0-9.-]`, the domain class of the email rule. -/
def inEmailDomainClass (c : Char) : Bool :=
  isAsciiAlphaChar c || isAsciiDigitChar c || c = '.' || c = '-'

/-- Membership in `[^\s@]`, the class used three times by the email pattern
quoted in the specification. -/
def notSpaceAt (c : Char) : Bool :=
  !isPySpace c && c ≠ '@'

/-- Semantics of `re.fullmatch` of the source's email rule
`^[a-zA-Z0-9._%+-]+@[a-zA-Z0-9.-]+\.[a-zA-Z]{2,}$`: the string splits at an
`@` with a nonempty local part over the local class before it, and after it a
nonempty domain prefix over the domain class, a literal dot, and a final run
of at least two ASCII letters reaching the end of the string. -/
def email_fullmatch_code (s : String) : Bool :=
  let cs := s.data
  (List.range cs.length).any fun i =>
    cs.get? i = some '@' && decide (0 < i) && (cs.take i).all inEmailLocalClass &&
    (let d := cs.drop (i + 1)
     (List.range d.length).any fun j =>
       d.get? j = some '.' && decide (0 < j) && (d.take j).all inEmailDomainClass &&
       (d.drop (j + 1)).all isAsciiAlphaChar && decide (2 ≤ d.length - (j + 1)))

/-- Semantics of `re.fullmatch` of the pattern `^[^\s@]+@[^\s@]+\.[^\s@]+$` quoted by the
specification (not the pattern in the source): an `@` with a nonempty
`[^\s@]` run before it, and after it a nonempty `[^\s@]` run, a literal dot,
and a nonempty `[^\s@]` run to the end. -/
def email_regex_spec (s : String) : Bool :=
  let cs := s.data
  (List.range cs.length).any fun i =>
    cs.get? i = some '@' && decide (0 < i) && (cs.take i).all notSpaceAt &&
    (let d := cs.drop (i + 1)
     (List.range d.length).any fun j =>
       d.get? j = some '.' && decide (0 < j) && (d.take j).all notSpaceAt &&
       (d.drop (j + 1)).all notSpaceAt && decide (1 ≤ d.length - (j + 1)))

/-- Membership in `[\d\s-]`, the body class of the phone rule. -/
def inPhoneClass (c : Char) : Bool :=
  isAsciiDigitChar c || isPySpace c || c = '-'

/-- Semantics of `re.fullmatch` of the source's phone rule `^\+?[\d\s-]{8,}$`: an optional
leading `+` followed by at least eight characters from `[\d\s-]` (a leading
`+` is not in the body class, so it can only be consumed by `\+?`). -/
def phone_fullmatch_code (s : String) : Bool :=
  match s.data with
  | '+' :: rest => rest.all inPhoneClass && decide (8 ≤ rest.length)
  | cs => cs.all inPhoneClass && decide (8 ≤ cs.length)

/-! ## Python value universe for the validator

`validate_cv` receives `state.__dict__`; `_pre_validate` branches on the
Python type of the data it gets.  A small universe of Python values models
this, with Python truthiness. -/

/-- Python values as seen by the validator. -/
inductive PyVal where
  | vnone : PyVal
  | vstr : String → PyVal
  | vbool : Bool → PyVal
  | vlist : List PyVal → PyVal
  | vdict : List (String × PyVal) → PyVal

/-- Python truthiness. -/
def pyTruthy : PyVal → Bool
  | .vnone => false
  | .vstr s => s ≠ ""
  | .vbool b => b
  | .vlist xs => !xs.isEmpty
  | .vdict xs => !xs.isEmpty

/-- An optional string as a Python value (`None` or `str`). -/
def optStrVal : Option String → PyVal
  | none => .vnone
  | some s => .vstr s

/-- Dict `state.__dict__`: the pydantic field dict of a `CVState`, in field order. -/
def stateDict (s : CVState) : List (String × PyVal) :=
  [("language", .vstr s.language),
   ("personal_info", .vdict (s.personal_info.map (fun p => (p.1, .vstr p.2)))),
   ("education", .vlist (s.education.map (fun e => .vdict (e.map (fun p => (p.1, .vstr p.2)))))),
   ("work_experience", .vlist (s.work_experience.map (fun e => .vdict (e.map (fun p => (p.1, .vstr p.2)))))),
   ("skills", .vlist (s.skills.map .vstr)),
   ("validation_errors", .vdict (s.validation_errors.map (fun p => (p.1, .vstr p.2)))),
   ("current_section", .vstr s.current_section),
   ("current_field", optStrVal s.current_field),
   ("user_input", optStrVal s.user_input),
   ("chatbot_response", optStrVal s.chatbot_response),
   ("cv_output", optStrVal s.cv_output),
   ("is_complete", .vbool s.is_complete)]

/-! ## Validation rules and `DataValidator` (`app/services/validation.py`) -/

/-- The two regex rule strings of
`_validation_rules["personal_info"].format_rules`. -/
inductive FormatPat where
  | emailPat : FormatPat
  | phonePat : FormatPat
deriving Repr, DecidableEq

/-- The `re.fullmatch` semantics of each rule string. -/
def fullmatchPat : FormatPat → String → Bool
  | .emailPat => email_fullmatch_code
  | .phonePat => phone_fullmatch_code

/-- Record `ValidationRule` from `app/services/validation.py`.  The
`prompt_template` field is opaque LLM-facing text never inspected by any
branch of the validator, so it is not carried. -/
structure ValidationRule where
  required_fields : List String
  format_rules : List (String × FormatPat)
  section_required : Bool := true
deriving Repr, DecidableEq

/-- Table `DataValidator._validation_rules` as built in `__init__`.  The dynamic
sync loop over `PROMPTS["en"]` adds nothing: all five of its keys
(personal_info, education, work_experience, skills, finalize) are already
present. -/
def validation_rules : String → Option ValidationRule
  | "personal_info" => some ⟨["name", "email", "phone"],
      [("email", .emailPat), ("phone", .phonePat)], true⟩
  | "education" => some ⟨[], [], true⟩
  | "work_experience" => some ⟨[], [], true⟩
  | "skills" => some ⟨[], [], true⟩
  | "finalize" => some ⟨[], [], false⟩
  | _ => none

/-- Method `DataValidator._validate_format`: `False` for non-string values, else
`re.fullmatch` of the rule (the `re.error` branch cannot fire for the two
fixed well-formed patterns). -/
def _validate_format (value : PyVal) (rule : FormatPat) : Bool :=
  match value with
  | .vstr s => fullmatchPat rule s
  | _ => false

/-- Method `DataValidator._pre_validate`.  The dead
`elif field in data and not data[field] ...: pass` arm of the format loop is
a no-op in the source and contributes nothing. -/
def _pre_validate (sec : String) (data : PyVal) : Option String :=
  match validation_rules sec with
  | none => some ("Configuration error: Unknown validation section '" ++ sec ++ "'")
  | some rule =>
    if !pyTruthy data && rule.section_required then
      some ("Missing required section: " ++ sec)
    else if !pyTruthy data then
      none
    else
      match data with
      | .vdict d =>
        let missing := rule.required_fields.filter (fun f =>
          match dictGet d f with
          | none => true
          | some v => !pyTruthy v)
        let missingErrs := if missing.isEmpty then []
          else ["Missing required fields: " ++ String.intercalate ", " missing]
        let format_errors := (rule.format_rules.filter (fun fr =>
            pyTruthy ((dictGet d fr.1).getD .vnone) &&
            !_validate_format ((dictGet d fr.1).getD .vnone) fr.2)).map
          (fun fr => "Invalid format for field '" ++ fr.1 ++ "'")
        let errors := missingErrs ++ format_errors
        if errors.isEmpty then none else some (String.intercalate "; " errors)
      | _ => none

/-- The `data is None or (isinstance(data, (dict | list | str)) and not data)`
test of `validate_input` (a `bool` is not an instance of those three, so it
never counts as empty here). -/
def dataEmptyCheck : PyVal → Bool
  | .vnone => true
  | .vstr s => s = ""
  | .vlist xs => xs.isEmpty
  | .vdict xs => xs.isEmpty
  | .vbool _ => false

/-- One step of the response-parsing loop of `validate_input` (the running
`current_section` variable of the loop is only printed and carries no
effect).  State: accumulated `message_parts` (nonempty: it starts with the
status line) and the two section flags. -/
def parseStep (acc : List String × Bool × Bool) (line : String) :
    List String × Bool × Bool :=
  let (message_parts, issues_started, suggestions_started) := acc
  let line_upper := pyStrip (pyUpper line)
  if line_upper.startsWith "ISSUES:" then
    (message_parts ++ ["\n" ++ line], true, false)
  else if line_upper.startsWith "SUGGESTIONS:" then
    (message_parts ++ ["\n" ++ line], false, true)
  else if (issues_started || suggestions_started) &&
      ((pyStrip line).startsWith "-" || (pyStrip line).startsWith "*" ||
        (pyStrip line).startsWith "•") then
    (message_parts ++ [line], issues_started, suggestions_started)
  else if issues_started || suggestions_started then
    let lastPart := (message_parts.getLast?).getD ""
    if (pyStrip lastPart).startsWith "-" || (pyStrip lastPart).startsWith "*" ||
        (pyStrip lastPart).startsWith "•" then
      (message_parts.dropLast ++ [lastPart ++ " " ++ pyStrip line],
        issues_started, suggestions_started)
    else
      (message_parts ++ [line], issues_started, suggestions_started)
  else
    (message_parts, issues_started, suggestions_started)

/-- The `try` body of `validate_input` once the LLM response text `result`
is in hand: verdict from the first line, message rebuilt by the parsing
loop. -/
def parseJudgeResponse (result : String) : Bool × String :=
  let lines := (pyStrip result).splitOn "\n"
  let status_line := lines.head?.getD "INVALID: No response"
  let is_valid := (pyUpper status_line).startsWith "VALID"
  let (message_parts, _, _) :=
    (lines.drop 1).foldl parseStep ([status_line], false, false)
  (is_valid, pyStrip (String.intercalate "\n" message_parts))

/-- The body of one attempt of `DataValidator.validate_input` (the function
tenacity wraps), with the LLM call's outcome passed in as `judge`: `.ok text`
is a response whose content stripped to `text`; `.error e` is an exception
raised by the call (network failure, missing content, …), which the body's
own `try/except` turns into a normal `(False, …)` return — the body itself
raises on no path, so its result type's `.error` case is vacant. -/
def validate_input_body (sec : String) (data : PyVal) (strict : Bool)
    (judge : Except String String) : Except String (Bool × String) :=
  match validation_rules sec with
  | none => .ok (false, "Validation rule not found for section: " ++ sec)
  | some rule =>
    let pre_validation_error := _pre_validate sec data
    match pre_validation_error, strict with
    | some err, true => .ok (false, "Pre-validation Error: " ++ err)
    | pre, _ =>
      if dataEmptyCheck data && !rule.section_required then
        .ok (true, "VALID: Optional section is empty.")
      else
        match judge with
        | .error e => .ok (false, "Validation failed due to an error: " ++ e)
        | .ok result =>
          let parsed := parseJudgeResponse result
          let formatted_message :=
            match pre, strict with
            | some err, false =>
              "Pre-validation Warning: " ++ err ++ "\n---\nLLM Validation:\n" ++
                parsed.2
            | _, _ => parsed.2
          .ok (parsed.1, formatted_message)

/-- The tenacity `@retry` driver: run the body, retry on a raised exception,
and after `fuel` failed attempts return `retry_error_callback` applied to the
attempt count.  Also returns how many attempts were made. -/
def tenacity_run {α : Type} (body : Nat → Except String α) (onExhaust : Nat → α) :
    Nat → Nat → α × Nat
  | 0, attempted => (onExhaust attempted, attempted)
  | fuel + 1, attempted =>
    match body (attempted + 1) with
    | .ok a => (a, attempted + 1)
    | .error _ => tenacity_run body onExhaust fuel (attempted + 1)

/-- Method `DataValidator.validate_input` as decorated:
`retry(stop=stop_after_attempt(3), wait=…, retry_error_callback=…)` around
`validate_input_body`, with the LLM outcome of the `k`-th attempt given by
`judge k`.  Returns the result together with the number of attempts made. -/
def validate_input (judge : Nat → Except String String) (sec : String)
    (data : PyVal) (strict : Bool) : (Bool × String) × Nat :=
  tenacity_run (fun k => validate_input_body sec data strict (judge k))
    (fun n => (false, "Validation failed after " ++ toString n ++ " attempts")) 3 0

/-! ## Serialization (`app/services/redis_store.py`)

`RedisStore.save_state` persists `state.model_dump_json()`; `load_state`
rebuilds the state with `CVState.model_validate_json`, which re-runs the
field validators (`validate_language`, `validate_section`).  The JSON text is
modelled as a JSON value tree; `encodeState` is the dump of a `CVState` and
`decodeState` the pydantic parse, strict on field types and applying the two
field validators, with the model defaults for absent keys. -/

/-- JSON values. -/
inductive Json where
  | jnull : Json
  | jbool : Bool → Json
  | jstr : String → Json
  | jarr : List Json → Json
  | jobj : List (String × Json) → Json

/-- An optional string dumped to JSON (`None` → `null`). -/
def encodeOptStr : Option String → Json
  | none => .jnull
  | some s => .jstr s

/-- A `dict[str, str]` dumped to JSON. -/
def encodeStrDict (d : List (String × String)) : Json :=
  .jobj (d.map (fun p => (p.1, .jstr p.2)))

/-- Dump `CVState.model_dump_json()`: every field, in declaration order. -/
def encodeState (s : CVState) : Json :=
  .jobj
    [("language", .jstr s.language),
     ("personal_info", encodeStrDict s.personal_info),
     ("education", .jarr (s.education.map encodeStrDict)),
     ("work_experience", .jarr (s.work_experience.map encodeStrDict)),
     ("skills", .jarr (s.skills.map .jstr)),
     ("validation_errors", encodeStrDict s.validation_errors),
     ("current_section", .jstr s.current_section),
     ("current_field", encodeOptStr s.current_field),
     ("user_input", encodeOptStr s.user_input),
     ("chatbot_response", encodeOptStr s.chatbot_response),
     ("cv_output", encodeOptStr s.cv_output),
     ("is_complete", .jbool s.is_complete)]

/-- Parse a JSON string. -/
def decodeStr : Json → Except String String
  | .jstr s => .ok s
  | _ => .error "expected string"

/-- Parse a JSON string-or-null into an optional string. -/
def decodeOptStr : Json → Except String (Option String)
  | .jnull => .ok none
  | .jstr s => .ok (some s)
  | _ => .error "expected string or null"

/-- Parse a JSON boolean. -/
def decodeBool : Json → Except String Bool
  | .jbool b => .ok b
  | _ => .error "expected boolean"

/-- Parse the bindings of a JSON object whose values are all strings. -/
def decodeStrPairs : List (String × Json) → Except String (List (String × String))
  | [] => .ok []
  | (k, v) :: xs => do
    let s ← decodeStr v
    let rest ← decodeStrPairs xs
    .ok ((k, s) :: rest)

/-- Parse a JSON object whose values are all strings into a `dict[str, str]`. -/
def decodeStrDict : Json → Except String (List (String × String))
  | .jobj xs => decodeStrPairs xs
  | _ => .error "expected object"

/-- Parse a list of JSON values as string-valued objects (the list-section
entries as produced by the turn-based flow). -/
def decodeEntries : List Json → Except String (List Entry)
  | [] => .ok []
  | x :: xs => do
    let e ← decodeStrDict x
    let rest ← decodeEntries xs
    .ok (e :: rest)

/-- Parse a JSON array of string-valued objects. -/
def decodeEntryList : Json → Except String (List Entry)
  | .jarr xs => decodeEntries xs
  | _ => .error "expected array"

/-- Parse a list of JSON values as strings. -/
def decodeStrs : List Json → Except String (List String)
  | [] => .ok []
  | x :: xs => do
    let s ← decodeStr x
    let rest ← decodeStrs xs
    .ok (s :: rest)

/-- Parse a JSON array of strings. -/
def decodeStrList : Json → Except String (List String)
  | .jarr xs => decodeStrs xs
  | _ => .error "expected array"

/-- A field of the dumped object: the stored value, or the model default when
the key is absent. -/
def jsonField (xs : List (String × Json)) (k : String) (dflt : Json) : Json :=
  (dictGet xs k).getD dflt

/-- Parse `CVState.model_validate_json`: field-by-field typed parse with the model
defaults, then the two `field_validator`s (`validate_language` on `language`,
`validate_section` on `current_section`), each of which can raise. -/
def decodeState (j : Json) : Except String CVState :=
  match j with
  | .jobj xs => do
    let language ← decodeStr (jsonField xs "language" (.jstr "ar"))
    let language ← validate_language language
    let personal_info ← decodeStrDict (jsonField xs "personal_info" (.jobj []))
    let education ← decodeEntryList (jsonField xs "education" (.jarr []))
    let work_experience ← decodeEntryList (jsonField xs "work_experience" (.jarr []))
    let skills ← decodeStrList (jsonField xs "skills" (.jarr []))
    let validation_errors ← decodeStrDict (jsonField xs "validation_errors" (.jobj []))
    let current_section ← decodeStr (jsonField xs "current_section" (.jstr "personal_info"))
    let current_section ← validate_section current_section
    let current_field ← decodeOptStr (jsonField xs "current_field" .jnull)
    let user_input ← decodeOptStr (jsonField xs "user_input" .jnull)
    let chatbot_response ← decodeOptStr (jsonField xs "chatbot_response" .jnull)
    let cv_output ← decodeOptStr (jsonField xs "cv_output" .jnull)
    let is_complete ← decodeBool (jsonField xs "is_complete" (.jbool false))
    .ok { language, personal_info, education, work_experience, skills,
          validation_errors, current_section, current_field, user_input,
          chatbot_response, cv_output, is_complete }
  | _ => .error "expected object"

/-- A state the model itself accepts: its `language` and `current_section`
pass the two field validators (every state built by the modelled flow other
than the completed terminal update satisfies this). -/
def ValidState (s : CVState) : Prop :=
  s.language ∈ valid_languages ∧ s.current_section ∈ valid_sections

instance (s : CVState) : Decidable (ValidState s) := by
  unfold ValidState; infer_instance

/-! ## Helper lemmas -/

theorem dropWhile_dropWhile {α : Type} (p : α → Bool) (l : List α) :
    (l.dropWhile p).dropWhile p = l.dropWhile p := by
  induction l with
  | nil => rfl
  | cons a l ih =>
    by_cases h : p a
    · simp [List.dropWhile_cons, h, ih]
    · simp [List.dropWhile_cons, h]

theorem head?_dropWhile_not {α : Type} (p : α → Bool) (l : List α) {c : α}
    (h : (l.dropWhile p).head? = some c) : p c = false := by
  induction l with
  | nil => simp [List.dropWhile] at h
  | cons a l ih =>
    by_cases ha : p a
    · exact ih (by simpa [List.dropWhile_cons, ha] using h)
    · simp [List.dropWhile_cons, ha] at h
      subst h
      simpa using ha

theorem dropWhile_eq_self_of_head {α : Type} (p : α → Bool) (l : List α)
    (h : ∀ c, l.head? = some c → p c = false) : l.dropWhile p = l := by
  cases l with
  | nil => rfl
  | cons a l => simp [List.dropWhile_cons, h a rfl]

/-- Stripping is idempotent. -/
theorem stripChars_idem (cs : List Char) :
    stripChars (stripChars cs) = stripChars cs := by
  unfold stripChars
  set p := isPySpace with hp
  set u := cs.dropWhile p with hu
  set v := u.reverse.dropWhile p with hv
  have hA : v.reverse.dropWhile p = v.reverse := by
    apply dropWhile_eq_self_of_head
    intro c hc
    rw [List.head?_reverse] at hc
    have hvnil : v ≠ [] := by
      intro h0; rw [h0] at hc; simp at hc
    have hsuf : v <:+ u.reverse := by rw [hv]; exact List.dropWhile_suffix p
    obtain ⟨t, ht⟩ := hsuf
    have hlast : u.reverse.getLast? = some c := by
      rw [← ht, List.getLast?_append_of_ne_nil t hvnil, hc]
    rw [List.getLast?_reverse] at hlast
    exact head?_dropWhile_not p cs (by rw [← hu]; exact hlast)
  calc ((v.reverse.dropWhile p).reverse.dropWhile p).reverse
      = ((v.reverse).reverse.dropWhile p).reverse := by rw [hA]
    _ = (v.dropWhile p).reverse := by rw [List.reverse_reverse]
    _ = v.reverse := by rw [hv, dropWhile_dropWhile]

/-- Python `s.strip().strip() == s.strip()`. -/
theorem pyStrip_idem (s : String) : pyStrip (pyStrip s) = pyStrip s :=
  congrArg String.mk (stripChars_idem s.data)

/-- Inversion of the `KEYWORDS` table: a successful lookup is one of the two
configured languages with its literal keyword record. -/
theorem KEYWORDS_cases (lang : String) (kw : Keywords)
    (hkw : KEYWORDS lang = some kw) :
    lang = "ar" ∧ kw = ⟨"تم", "مراجعة", "إنشاء", "تعديل"⟩ ∨
    lang = "en" ∧ kw = ⟨"done", "review", "generate", "edit"⟩ := by
  unfold KEYWORDS at hkw
  split at hkw
  · exact Or.inl ⟨rfl, (Option.some.injEq _ _).mp hkw.symm⟩
  · exact Or.inr ⟨rfl, (Option.some.injEq _ _).mp hkw.symm⟩
  · exact absurd hkw (by simp)

/-! ## C2 -/

/-- C2, counterexample: with the education section active, input "done" (the
English done keyword) transitions `current_section` to "skills", not to
"work_experience" as the claim's fixed sequence asserts. -/
theorem C2_education_done_goes_to_skills :
    handle_education (some "done") [] "en" =
      .ok { current_section := some "skills", current_field := some none } ∧
    ("skills" : String) ≠ "work_experience" := by
  constructor
  · rfl
  · decide

/-- C2 as amended: the done keyword advances education directly to skills and
work_experience directly to finalize; the handler chain realised by the code
is personal_info → education → skills → finalize, with work_experience (when
it is ever the active section) advancing to finalize. -/
theorem C2_done_transitions (lang : String) (kw : Keywords)
    (hkw : KEYWORDS lang = some kw) (edu exp : List Entry) :
    handle_education (some kw.done) edu lang =
      .ok { current_section := some "skills", current_field := some none } ∧
    handle_experience (some kw.done) exp lang =
      .ok { current_section := some "finalize", current_field := some none } := by
  have hl : lang = "ar" ∧ kw = ⟨"تم", "مراجعة", "إنشاء", "تعديل"⟩ ∨
      lang = "en" ∧ kw = ⟨"done", "review", "generate", "edit"⟩ := by
    unfold KEYWORDS at hkw
    split at hkw
    · exact Or.inl ⟨rfl, (Option.some.injEq _ _).mp hkw.symm⟩
    · exact Or.inr ⟨rfl, (Option.some.injEq _ _).mp hkw.symm⟩
    · exact absurd hkw (by simp)
  rcases hl with ⟨h1, h2⟩ | ⟨h1, h2⟩ <;> subst h1 <;> subst h2 <;>
    exact ⟨rfl, rfl⟩

/-- Witness for C2's amended theorem at language "ar". -/
theorem C2_done_transitions_witness :
    handle_education (some "تم") [[("details", "x")]] "ar" =
      .ok { current_section := some "skills", current_field := some none } ∧
    handle_experience (some "تم") [] "ar" =
      .ok { current_section := some "finalize", current_field := some none } :=
  C2_done_transitions "ar" ⟨"تم", "مراجعة", "إنشاء", "تعديل"⟩ rfl
    [[("details", "x")]] []

/-! ## C3 -/

/-- C3: the claim fails on the code.  A successful "generate" returns an
update with `current_section = "completed"`, but the state model's
`validate_section` rejects "completed" (it is absent from `valid_sections`),
so the update cannot be merged into a `CVState` without the model raising. -/
theorem C3_completed_not_admissible :
    (handle_generate (.ok ("cv.pdf", "CV TEXT"))
        { language := "en", current_section := "finalize" }).map
      (fun u => (u.current_section, u.is_complete)) =
      .ok (some "completed", some true) ∧
    validate_section "completed" =
      .error ("Invalid section: completed. Expected one of: personal_info, " ++
        "education, work_experience, skills, finalize, review") ∧
    ("completed" ∉ valid_sections) := by
  exact ⟨rfl, rfl, by decide⟩

/-! ## C4 -/

/-- C4: for both configured languages and every raw input, the list-section
handlers are the three-way case split of the claim.  If the trimmed,
case-folded input equals the language's done keyword, each returns exactly
the transition to its configured next section with `current_field` cleared
and no list key in the update; if the trimmed input is empty, each re-prompts
and stays in its section with no list key in the update; otherwise each
returns a copy of the list with exactly one appended entry (`details` record
for education/experience, bare trimmed string for skills) and stays in its
section.  The handlers are pure: the input list itself is untouched and only
referenced by the extended copy. -/
theorem C4_list_section_three_way (lang : String) (kw : Keywords)
    (hkw : KEYWORDS lang = some kw) (input : String)
    (edu exp : List Entry) (sk : List String) :
    (pyLower (pyStrip input) = pyLower kw.done →
      handle_education (some input) edu lang =
        .ok { current_section := some "skills", current_field := some none } ∧
      handle_experience (some input) exp lang =
        .ok { current_section := some "finalize", current_field := some none } ∧
      handle_skills input sk lang =
        .ok { current_section := some "finalize", current_field := some none }) ∧
    (pyStrip input = "" → pyLower (pyStrip input) ≠ pyLower kw.done →
      handle_education (some input) edu lang =
        .ok { current_section := some "education",
              chatbot_response := some (some "Please provide details or type 'done'.") } ∧
      handle_experience (some input) exp lang =
        .ok { current_section := some "work_experience",
              chatbot_response := some (some "Please provide details or type 'done'.") } ∧
      handle_skills input sk lang =
        .ok { current_section := some "skills",
              chatbot_response := some (some "Please provide a skill or type 'done'.") }) ∧
    (pyStrip input ≠ "" → pyLower (pyStrip input) ≠ pyLower kw.done →
      handle_education (some input) edu lang =
        .ok { education := some (edu ++ [[("details", pyStrip input)]]),
              current_section := some "education", current_field := some none } ∧
      handle_experience (some input) exp lang =
        .ok { work_experience := some (exp ++ [[("details", pyStrip input)]]),
              current_section := some "work_experience", current_field := some none } ∧
      handle_skills input sk lang =
        .ok { skills := some (sk ++ [pyStrip input]),
              current_section := some "skills", current_field := some none }) := by
  rcases KEYWORDS_cases lang kw hkw with ⟨h1, h2⟩ | ⟨h1, h2⟩ <;> subst h1 <;> subst h2
  case inl =>
    have hk : KEYWORDS "ar" =
        some (⟨"تم", "مراجعة", "إنشاء", "تعديل"⟩ : Keywords) := rfl
    refine ⟨fun h => ⟨?_, ?_, ?_⟩, fun hemp hnd => ⟨?_, ?_, ?_⟩,
      fun hne hnd => ⟨?_, ?_, ?_⟩⟩ <;>
      simp only [handle_education, handle_experience, handle_skills,
        handle_list_section, Option.getD, pyStrip_idem, hk] <;>
      first
        | rw [if_pos h]
        | rw [if_neg hnd, if_pos hemp]
        | (rw [if_neg hnd, if_neg hne]; try simp)
  case inr =>
    have hk : KEYWORDS "en" =
        some (⟨"done", "review", "generate", "edit"⟩ : Keywords) := rfl
    refine ⟨fun h => ⟨?_, ?_, ?_⟩, fun hemp hnd => ⟨?_, ?_, ?_⟩,
      fun hne hnd => ⟨?_, ?_, ?_⟩⟩ <;>
      simp only [handle_education, handle_experience, handle_skills,
        handle_list_section, Option.getD, pyStrip_idem, hk] <;>
      first
        | rw [if_pos h]
        | rw [if_neg hnd, if_pos hemp]
        | (rw [if_neg hnd, if_neg hne]; try simp)

/-- Witness for C4: all three branches exercised at concrete inputs in
English — case-folded " DONE " completes education, whitespace input
re-prompts skills without touching the list, and an ordinary entry is
appended to work experience. -/
theorem C4_list_section_three_way_witness :
    handle_education (some " DONE ") [[("details", "BSc")]] "en" =
      .ok { current_section := some "skills", current_field := some none } ∧
    handle_skills "   " ["Python"] "en" =
      .ok { current_section := some "skills",
            chatbot_response := some (some "Please provide a skill or type 'done'.") } ∧
    handle_experience (some " Engineer at Corp ") [] "en" =
      .ok { work_experience := some [[("details", "Engineer at Corp")]],
            current_section := some "work_experience", current_field := some none } := by
  refine ⟨?_, ?_, ?_⟩
  · exact ((C4_list_section_three_way "en" ⟨"done", "review", "generate", "edit"⟩
      rfl " DONE " [[("details", "BSc")]] [] []).1 (by decide)).1
  · exact ((C4_list_section_three_way "en" ⟨"done", "review", "generate", "edit"⟩
      rfl "   " [] [] ["Python"]).2.1 (by decide) (by decide)).2.2
  · exact ((C4_list_section_three_way "en" ⟨"done", "review", "generate", "edit"⟩
      rfl " Engineer at Corp " [] [] []).2.2 (by decide) (by decide)).2.1

/-! ## C5 -/

/-- C5: for every non-empty input with a `current_field` from the registry,
`handle_personal_info` stores the trimmed input under that field key of a
copy of the dict and advances `current_field` to the registry's next field in
fixed order; after the last registry field it sets
`current_section = "education"` and `current_field = None`; and when invoked
with `current_field` unset it resets `current_field` to the first registry
field and stores nothing (the update carries no `personal_info` key). -/
theorem C5_personal_info_advance (input : String) (hne : input ≠ "")
    (pinfo : List (String × String)) :
    (∀ i (hi : i < PERSONAL_INFO_FIELDS.length),
      handle_personal_info (some input) pinfo
          (some (PERSONAL_INFO_FIELDS.get ⟨i, hi⟩)) =
        if h : i + 1 < PERSONAL_INFO_FIELDS.length then
          { personal_info := some (dictSet pinfo
              (PERSONAL_INFO_FIELDS.get ⟨i, hi⟩) (pyStrip input)),
            current_field := some (some (PERSONAL_INFO_FIELDS.get ⟨i + 1, h⟩)),
            current_section := some "personal_info" }
        else
          { personal_info := some (dictSet pinfo
              (PERSONAL_INFO_FIELDS.get ⟨i, hi⟩) (pyStrip input)),
            current_section := some "education", current_field := some none }) ∧
    handle_personal_info (some input) pinfo none =
      { current_field := some (some "name"),
        current_section := some "personal_info" } := by
  constructor
  · intro i hi
    have hi4 : i < 4 := by simpa [PERSONAL_INFO_FIELDS] using hi
    interval_cases i <;> rfl
  · rfl

/-- Witness for C5: the name field stores the trimmed value and advances to
email; the last field (address) closes the section into education. -/
theorem C5_personal_info_advance_witness :
    handle_personal_info (some " John Doe ") [] (some "name") =
      { personal_info := some [("name", "John Doe")],
        current_field := some (some "email"),
        current_section := some "personal_info" } ∧
    handle_personal_info (some "123 Main St") [("name", "John Doe")]
        (some "address") =
      { personal_info := some [("name", "John Doe"), ("address", "123 Main St")],
        current_section := some "education", current_field := some none } := by
  constructor
  · exact ((C5_personal_info_advance " John Doe " (by decide) []).1 0
      (by decide)).trans (by decide)
  · exact ((C5_personal_info_advance "123 Main St" (by decide)
      [("name", "John Doe")]).1 3 (by decide)).trans (by decide)

/-! ## C8 -/

/-- C8: with the finalize section active and the language's edit keyword as
input, the handler's update resets `current_section` to personal_info,
`current_field` to the first registry field, clears `is_complete` and
`cv_output`, and carries no key for any collected data field, so merging it
leaves `personal_info`, `education`, `work_experience` and `skills`
unchanged. -/
theorem C8_finalize_edit_resets (lang : String) (kw : Keywords)
    (hkw : KEYWORDS lang = some kw) (s : CVState)
    (render : Except String (String × String)) :
    handle_finalize (some kw.edit) s lang render =
      .ok { current_section := some "personal_info",
            current_field := some (some "name"),
            is_complete := some false, cv_output := some none } ∧
    ∀ u, handle_finalize (some kw.edit) s lang render = .ok u →
      (applyUpdate s u).current_section = "personal_info" ∧
      (applyUpdate s u).current_field = some "name" ∧
      (applyUpdate s u).is_complete = false ∧
      (applyUpdate s u).cv_output = none ∧
      (applyUpdate s u).personal_info = s.personal_info ∧
      (applyUpdate s u).education = s.education ∧
      (applyUpdate s u).work_experience = s.work_experience ∧
      (applyUpdate s u).skills = s.skills := by
  have heq : handle_finalize (some kw.edit) s lang render =
      .ok { current_section := some "personal_info",
            current_field := some (some "name"),
            is_complete := some false, cv_output := some none } := by
    rcases KEYWORDS_cases lang kw hkw with ⟨h1, h2⟩ | ⟨h1, h2⟩ <;>
      subst h1 <;> subst h2 <;> rfl
  refine ⟨heq, fun u hu => ?_⟩
  rw [heq] at hu
  injection hu with hu
  subst hu
  simp [applyUpdate]

/-- Witness for C8, the spec's end-to-end scenario 4: Arabic "تعديل" in
finalize resets to personal_info with the first field selected and
`is_complete = False`, leaving collected data untouched. -/
theorem C8_finalize_edit_resets_witness :
    handle_finalize (some "تعديل")
        { language := "ar", current_section := "finalize",
          skills := ["Python"] } "ar" (.error "renderer unavailable") =
      .ok { current_section := some "personal_info",
            current_field := some (some "name"),
            is_complete := some false, cv_output := some none } ∧
    (applyUpdate
        { language := "ar", current_section := "finalize",
          skills := ["Python"] }
        { current_section := some "personal_info",
          current_field := some (some "name"),
          is_complete := some false, cv_output := some none }).skills =
      ["Python"] := by
  have h := C8_finalize_edit_resets "ar" ⟨"تم", "مراجعة", "إنشاء", "تعديل"⟩ rfl
    { language := "ar", current_section := "finalize", skills := ["Python"] }
    (.error "renderer unavailable")
  exact ⟨h.1, ((h.2 _ h.1).2.2.2.2.2.2.2)⟩

/-! ## C1 -/

/-- C1: the claim fails on the code.  With the education section active,
input "done" and a validator that rejects the section, `process_input`
returns the handler's update with `current_section` still set to "skills":
the failure branch adds the error response and `validation_errors` entry but
never removes the section advance, so the merged state moves to "skills"
instead of staying in "education" as the claim requires. -/
theorem C1_failed_validation_still_advances :
    process_input (fun _ _ => (false, "Education entries incomplete"))
        (.error "unused")
        { language := "en", current_section := "education",
          education := [[("details", "BSc")]], user_input := some "done" } =
      { current_section := some "skills", current_field := some none,
        chatbot_response := some (some ("Please revise your input:\n" ++
          "Education entries incomplete\n\nCurrent section: education")),
        user_input := some none,
        validation_errors := some [("education", "Education entries incomplete")] } ∧
    (applyUpdate
        { language := "en", current_section := "education",
          education := [[("details", "BSc")]], user_input := some "done" }
        (process_input (fun _ _ => (false, "Education entries incomplete"))
          (.error "unused")
          { language := "en", current_section := "education",
            education := [[("details", "BSc")]],
            user_input := some "done" })).current_section = "skills" ∧
    ("skills" : String) ≠ "education" := by
  exact ⟨by decide, by decide, by decide⟩

/-! ## C10 -/

/-- C10: whenever a section-closing transition fails validation, the update
returned by `process_input` sets `validation_errors` to exactly the
singleton dict mapping the failing section to the validator's message, and
merging it replaces the state's previous `validation_errors` wholesale —
messages recorded for other sections are dropped. -/
theorem C10_validation_errors_singleton
    (validate : String → CVState → Bool × String)
    (render : Except String (String × String)) (state : CVState) (u : Update)
    (msg : String)
    (h1 : strFalsy state.user_input = false)
    (h2 : pyStrip (state.user_input.getD "") ≠ "")
    (hd : dispatch render state = some (.ok u))
    (hch : state.current_section ≠ u.current_section.getD state.current_section)
    (hv : validate state.current_section state = (false, msg)) :
    (process_input validate render state).validation_errors =
      some [(state.current_section, msg)] ∧
    (applyUpdate state (process_input validate render state)).validation_errors =
      [(state.current_section, msg)] := by
  have hpi : process_input validate render state =
      { u with
        chatbot_response := some (some ("Please revise your input:\n" ++
          msg ++ "\n\nCurrent section: " ++ state.current_section)),
        user_input := some none,
        validation_errors := some [(state.current_section, msg)] } := by
    unfold process_input
    rw [h1, decide_eq_false h2]
    simp only [Bool.or_false, Bool.false_eq_true, if_false, hd]
    rw [if_pos hch, hv]
    simp
  rw [hpi]
  exact ⟨rfl, rfl⟩

/-- Witness for C10: a failing education-closing transition on a state that
already carries error messages for two other sections ends with
`validation_errors` holding only the education entry. -/
theorem C10_validation_errors_singleton_witness :
    (process_input (fun _ _ => (false, "bad")) (.error "unused")
        { language := "en", current_section := "education",
          validation_errors := [("personal_info", "old"), ("skills", "older")],
          user_input := some "done" }).validation_errors =
      some [("education", "bad")] ∧
    (applyUpdate
        { language := "en", current_section := "education",
          validation_errors := [("personal_info", "old"), ("skills", "older")],
          user_input := some "done" }
        (process_input (fun _ _ => (false, "bad")) (.error "unused")
          { language := "en", current_section := "education",
            validation_errors := [("personal_info", "old"), ("skills", "older")],
            user_input := some "done" })).validation_errors =
      [("education", "bad")] :=
  C10_validation_errors_singleton (fun _ _ => (false, "bad")) (.error "unused")
    { language := "en", current_section := "education",
      validation_errors := [("personal_info", "old"), ("skills", "older")],
      user_input := some "done" }
    { current_section := some "skills", current_field := some none }
    "bad" (by decide) (by decide) rfl (by decide) rfl

/-! ## C7 -/

/-- C7: the claim fails on the code.  With an LLM judge call that raises on
every attempt, `validate_input` makes exactly one attempt: the blanket
`except` inside its body catches the exception and returns a normal
`(False, "Validation failed due to an error: …")` tuple, so the tenacity
`@retry` wrapper (which retries only on exceptions escaping the body) never
re-runs it and its `retry_error_callback` message
"Validation failed after 3 attempts" is never produced for a failed judge
call.  The result is still a failure, never a pass. -/
theorem C7_judge_failure_single_attempt :
    validate_input (fun _ => .error "Connection error") "education"
        (.vdict (stateDict
          { language := "en", current_section := "education",
            education := [[("details", "BSc Computer Science")]],
            user_input := some "done" })) true =
      ((false, "Validation failed due to an error: Connection error"), 1) ∧
    (1 : Nat) ≠ 3 ∧
    ("Validation failed due to an error: Connection error" : String) ≠
      "Validation failed after 3 attempts" := by
  exact ⟨rfl, by decide, by decide⟩

/-! ## C9 helper lemmas -/

theorem decodeStrPairs_encode (d : List (String × String)) :
    decodeStrPairs (d.map (fun p => (p.1, Json.jstr p.2))) = .ok d := by
  induction d with
  | nil => rfl
  | cons p d ih =>
    simp only [List.map_cons, decodeStrPairs, decodeStr, ih]
    rfl

theorem decodeStrDict_encode (d : List (String × String)) :
    decodeStrDict (encodeStrDict d) = .ok d :=
  decodeStrPairs_encode d

theorem decodeEntries_encode (l : List Entry) :
    decodeEntries (l.map encodeStrDict) = .ok l := by
  induction l with
  | nil => rfl
  | cons e l ih =>
    simp only [List.map_cons, decodeEntries, decodeStrDict_encode, ih]
    rfl

theorem decodeStrs_encode (l : List String) :
    decodeStrs (l.map Json.jstr) = .ok l := by
  induction l with
  | nil => rfl
  | cons s l ih =>
    simp only [List.map_cons, decodeStrs, decodeStr, ih]
    rfl

theorem decodeOptStr_encode (o : Option String) :
    decodeOptStr (encodeOptStr o) = .ok o := by
  cases o <;> rfl

/-! ## C9 -/

/-- C9: deserializing the JSON serialization of any valid session state
(one whose `language` and `current_section` pass the model's own field
validators) reproduces the state exactly, every field included — the nested
education, work_experience and skills lists and the validation_errors and
personal_info dicts among them. -/
theorem C9_serialization_roundtrip (s : CVState) (h : ValidState s) :
    decodeState (encodeState s) = .ok s := by
  obtain ⟨hlang, hsec⟩ := h
  have hvl : validate_language s.language = .ok s.language := by
    unfold validate_language
    rw [if_pos hlang]
  have hvs : validate_section s.current_section = .ok s.current_section := by
    unfold validate_section
    rw [if_pos hsec]
  simp [encodeState, decodeState, jsonField, dictGet, List.find?,
    encodeStrDict, decodeStrDict, decodeEntryList, decodeStrList,
    decodeStrPairs_encode, decodeEntries_encode, decodeStrs_encode,
    decodeOptStr_encode, decodeStr, decodeBool, hvl, hvs]
  simp only [bind, Except.bind, hvl, hvs]

/-- Witness for C9 at a populated state. -/
theorem C9_serialization_roundtrip_witness :
    ValidState
      { language := "en",
        personal_info := [("name", "John"), ("email", "john@example.com")],
        education := [[("details", "BSc")]],
        work_experience := [[("details", "Engineer")]],
        skills := ["Python", "Testing"],
        validation_errors := [("education", "old message")],
        current_section := "skills", current_field := none,
        user_input := some "Testing", chatbot_response := some "ok",
        cv_output := none, is_complete := false } ∧
    decodeState (encodeState
      { language := "en",
        personal_info := [("name", "John"), ("email", "john@example.com")],
        education := [[("details", "BSc")]],
        work_experience := [[("details", "Engineer")]],
        skills := ["Python", "Testing"],
        validation_errors := [("education", "old message")],
        current_section := "skills", current_field := none,
        user_input := some "Testing", chatbot_response := some "ok",
        cv_output := none, is_complete := false }) =
      .ok
      { language := "en",
        personal_info := [("name", "John"), ("email", "john@example.com")],
        education := [[("details", "BSc")]],
        work_experience := [[("details", "Engineer")]],
        skills := ["Python", "Testing"],
        validation_errors := [("education", "old message")],
        current_section := "skills", current_field := none,
        user_input := some "Testing", chatbot_response := some "ok",
        cv_output := none, is_complete := false } :=
  ⟨by decide, C9_serialization_roundtrip _ (by decide)⟩

/-! ## C6 helper lemmas -/

theorem char_ne_of_toNat_ne {c d : Char} (h : c.toNat ≠ d.toNat) : c ≠ d :=
  fun he => h (congrArg Char.toNat he)

/-- A character with code point at least 33 and different from 64 is neither
regex whitespace nor the at-sign. -/
theorem notSpaceAt_of_toNat (c : Char) (h1 : 33 ≤ c.toNat) (h2 : c.toNat ≠ 64) :
    notSpaceAt c = true := by
  have ha : c ≠ ' ' := char_ne_of_toNat_ne (by rw [show (' ').toNat = 32 from rfl]; omega)
  have hb : c ≠ '\t' := char_ne_of_toNat_ne (by rw [show ('\t').toNat = 9 from rfl]; omega)
  have hc : c ≠ '\n' := char_ne_of_toNat_ne (by rw [show ('\n').toNat = 10 from rfl]; omega)
  have hd : c ≠ '\r' := char_ne_of_toNat_ne (by rw [show ('\r').toNat = 13 from rfl]; omega)
  have he : c ≠ '\x0b' := char_ne_of_toNat_ne (by rw [show ('\x0b').toNat = 11 from rfl]; omega)
  have hf : c ≠ '\x0c' := char_ne_of_toNat_ne (by rw [show ('\x0c').toNat = 12 from rfl]; omega)
  have hg : c ≠ '@' := char_ne_of_toNat_ne (by rw [show ('@').toNat = 64 from rfl]; omega)
  simp [notSpaceAt, isPySpace, ha, hb, hc, hd, he, hf, hg]

/-- Every character of the email rule's local-part class is in `[^\s@]`. -/
theorem local_class_notSpaceAt (c : Char) (h : inEmailLocalClass c = true) :
    notSpaceAt c = true := by
  simp only [inEmailLocalClass, isAsciiAlphaChar, isAsciiDigitChar,
    Bool.or_eq_true, Bool.and_eq_true, decide_eq_true_eq] at h
  rcases h with ((((((⟨a, b⟩ | ⟨a, b⟩) | ⟨a, b⟩) | h) | h) | h) | h) | h
  · exact notSpaceAt_of_toNat c (by omega) (by omega)
  · exact notSpaceAt_of_toNat c (by omega) (by omega)
  · exact notSpaceAt_of_toNat c (by omega) (by omega)
  all_goals (subst h; decide)

/-- Every character of the email rule's domain class is in the local class. -/
theorem domain_class_local (c : Char) (h : inEmailDomainClass c = true) :
    inEmailLocalClass c = true := by
  simp only [inEmailDomainClass, inEmailLocalClass, Bool.or_eq_true] at *
  tauto

/-- Every ASCII letter is in the local class. -/
theorem alpha_class_local (c : Char) (h : isAsciiAlphaChar c = true) :
    inEmailLocalClass c = true := by
  simp only [inEmailLocalClass, Bool.or_eq_true]
  tauto

theorem all_imp {α : Type} {p q : α → Bool} (h : ∀ a, p a = true → q a = true)
    (l : List α) (hl : l.all p = true) : l.all q = true := by
  simp only [List.all_eq_true] at *
  exact fun a ha => h a (hl a ha)

/-! ## C6 -/

/-- C6: the claim fails on the code.  "a@b.c" matches the specification's
pattern `^[^\s@]+@[^\s@]+\.[^\s@]+$` (a one-character final label), yet the
structural email check — `_validate_format` with the email rule actually
stored in `validation_rules "personal_info"`, namely
`^[a-zA-Z0-9._%+-]+@[a-zA-Z0-9.-]+\.[a-zA-Z]{2,}$` — rejects it, because the
code's pattern demands at least two letters after the last dot. -/
theorem C6_spec_pattern_not_equivalent :
    email_regex_spec "a@b.c" = true ∧
    _validate_format (.vstr "a@b.c") .emailPat = false ∧
    (validation_rules "personal_info").map (fun r => r.format_rules) =
      some [("email", .emailPat), ("phone", .phonePat)] := by
  exact ⟨by decide, by decide, rfl⟩

/-- C6 as amended: the structural email check accepts only strings matching
the specification's pattern (acceptance implies a `[^\s@]+@[^\s@]+\.[^\s@]+`
decomposition), but not all of them — the set it accepts is exactly the
source pattern `^[a-zA-Z0-9._%+-]+@[a-zA-Z0-9.-]+\.[a-zA-Z]{2,}$`, which in
particular rejects one-character final domain labels. -/
theorem C6_code_email_implies_spec_pattern (s : String)
    (h : _validate_format (.vstr s) .emailPat = true) :
    email_regex_spec s = true := by
  simp only [_validate_format, fullmatchPat] at h
  simp only [email_fullmatch_code, List.any_eq_true, List.mem_range,
    Bool.and_eq_true, decide_eq_true_eq] at h
  obtain ⟨i, hi, ⟨⟨⟨hat, hipos⟩, hlocal⟩, j, hj, ⟨⟨⟨hdot, hjpos⟩, hdom⟩, halpha⟩, hlen⟩⟩ := h
  simp only [email_regex_spec, List.any_eq_true, List.mem_range,
    Bool.and_eq_true, decide_eq_true_eq]
  refine ⟨i, hi, ⟨⟨hat, hipos⟩, all_imp local_class_notSpaceAt _ hlocal⟩,
    j, hj, ⟨⟨⟨hdot, hjpos⟩,
      all_imp (fun c hc => local_class_notSpaceAt c (domain_class_local c hc)) _ hdom⟩,
      all_imp (fun c hc => local_class_notSpaceAt c (alpha_class_local c hc)) _ halpha⟩,
    by omega⟩

/-- Witness for C6's amended theorem: a code-accepted address also matches
the specification's pattern. -/
theorem C6_code_email_implies_spec_pattern_witness :
    _validate_format (.vstr "john@example.com") .emailPat = true ∧
    email_regex_spec "john@example.com" = true :=
  ⟨by decide, C6_code_email_implies_spec_pattern "john@example.com" (by decide)⟩

end CVBuilder
